import Mathlib

/-!
A shallow embedding of the trap/exception and privilege-transition layer of
the `axcpu` crate, together with proofs of its specified properties.

Machine integers (`u64`/`usize`) are modelled as `Nat`, with an explicit
`% 2 ^ 64` at the one place where the source performs wrapping arithmetic
(`tf.elr += 4`).  Register values read from hardware (`ESR_EL1`, `FAR_EL1`)
and the externally registered trap handlers (`handle_trap!`) are passed in
as explicit parameters.  A Rust `panic!` is modelled as `Option.none` /
an explicit `result := none` field.
-/

/-- Modelled from the spec: `PageFaultFlags` is a bit set over
READ, WRITE, EXECUTE and USER.  The `bitflags` declaration itself lives in
`src/trap.rs`, which is not among the included sources; the four flags and
their set-union are what the included code uses. -/
structure PageFaultFlags where
  read : Bool
  write : Bool
  execute : Bool
  user : Bool
deriving DecidableEq, Repr

namespace PageFaultFlags

/-- The READ access flag. -/
def READ : PageFaultFlags := ⟨true, false, false, false⟩

/-- The WRITE access flag. -/
def WRITE : PageFaultFlags := ⟨false, true, false, false⟩

/-- The EXECUTE access flag. -/
def EXECUTE : PageFaultFlags := ⟨false, false, true, false⟩

/-- The USER access flag. -/
def USER : PageFaultFlags := ⟨false, false, false, true⟩

/-- Bitwise union of two flag sets (the `|` operator of `bitflags`). -/
def union (a b : PageFaultFlags) : PageFaultFlags :=
  ⟨a.read || b.read, a.write || b.write, a.execute || b.execute, a.user || b.user⟩

end PageFaultFlags

/-- `ExceptionTableEntry` from `src/uspace.rs`: an ordered pair of a faulting
address and a recovery address.  The Rust field `from` is a Lean keyword, so
it is written `from_` here. -/
structure ExceptionTableEntry where
  from_ : Nat
  to_ : Nat
deriving DecidableEq, Repr

/-- The order produced by Rust's `#[derive(PartialOrd, Ord)]` on
`ExceptionTableEntry`: lexicographic on `(from_, to)`. -/
def entryLe (a b : ExceptionTableEntry) : Prop :=
  a.from_ < b.from_ ∨ (a.from_ = b.from_ ∧ a.to_ ≤ b.to_)

instance : DecidableRel entryLe := fun a b => by
  unfold entryLe
  infer_instance

instance : IsTotal ExceptionTableEntry entryLe :=
  ⟨fun a b => by
    unfold entryLe
    omega⟩

instance : IsTrans ExceptionTableEntry entryLe :=
  ⟨fun a b c hab hbc => by
    unfold entryLe at *
    omega⟩

/-- `init_exception_table` from `src/uspace.rs`: sorts the linker-provided
entry array in place by the derived (lexicographic) order.  Rust's
`sort_unstable` is modelled by `List.insertionSort`: both produce the sorted
permutation of the input, which is unique as a list of values for a total
antisymmetric order, so the value-level contract is identical. -/
def init_exception_table (l : List ExceptionTableEntry) : List ExceptionTableEntry :=
  List.insertionSort entryLe l

namespace AArch64

/-- The aarch64 `TrapFrame`.  The struct declaration lives in
`context.rs` (not among the included sources), but its full field list is
fixed by the record literal in `UserContext::new` in `src/aarch64/uctx.rs`:
31 general-purpose registers `r[0..=30]`, the user stack pointer `usp`, the
thread pointer `tpidr`, the exception link register `elr` and the saved
status register `spsr`. -/
structure TrapFrame where
  r : List Nat
  usp : Nat
  tpidr : Nat
  elr : Nat
  spsr : Nat
deriving DecidableEq, Repr

/-- Modelled from the spec: `instructionPointer()` reads the saved program
counter (the accessor lives in `context.rs`, not among the included
sources); on aarch64 the saved program counter is `elr`. -/
def TrapFrame.ip (tf : TrapFrame) : Nat := tf.elr

/-- Modelled from the spec: `setInstructionPointer(addr)` writes the saved
program counter `elr`. -/
def TrapFrame.set_ip (tf : TrapFrame) (addr : Nat) : TrapFrame :=
  { tf with elr := addr }

/-- The trap kinds delivered by the low-level aarch64 trampoline
(`TrapKind` in `src/aarch64/trap.rs`). -/
inductive TrapKind where
  | Synchronous
  | Irq
  | Fiq
  | SError
deriving DecidableEq, Repr

/-- The exception-class field of `ESR_EL1`: bits 31:26. -/
def esr_ec (esr : Nat) : Nat := esr / 2 ^ 26 % 2 ^ 6

/-- The instruction-specific-syndrome field of `ESR_EL1`: bits 24:0. -/
def esr_iss (esr : Nat) : Nat := esr % 2 ^ 25

/-- `is_valid_page_fault` from `src/aarch64/trap.rs`: only translation
faults and permission faults (IFSC/DFSC bits) are handleable page faults. -/
def is_valid_page_fault (iss : Nat) : Bool :=
  iss &&& 0b111100 == 0b0100 || iss &&& 0b111100 == 0b1100

/-- `data_abort_access_flags` from `src/aarch64/trap.rs`: WRITE only when
the WnR bit (bit 6) is set and the CM bit (bit 8) is clear. -/
def data_abort_access_flags (iss : Nat) : PageFaultFlags :=
  let wnr := iss &&& (1 <<< 6) != 0
  let cm := iss &&& (1 <<< 8) != 0
  if wnr && !cm then PageFaultFlags.WRITE else PageFaultFlags.READ

/-- The core loop of Rust's `slice::binary_search_by` as invoked by
`TrapFrame::fixup_exception` in `src/uspace.rs`, searching the entry with
`from_` equal to `key` in `entries[left..right]`.  `some i` models
`Ok(i)`; `none` models `Err(_)` (the insertion point is unused by the
caller). -/
def binary_search_from (entries : List ExceptionTableEntry) (key left right : Nat) :
    Option Nat :=
  if _h : left < right then
    if (entries.getD (left + (right - left) / 2) ⟨0, 0⟩).from_ < key then
      binary_search_from entries key (left + (right - left) / 2 + 1) right
    else if key < (entries.getD (left + (right - left) / 2) ⟨0, 0⟩).from_ then
      binary_search_from entries key left (left + (right - left) / 2)
    else some (left + (right - left) / 2)
  else none
termination_by right - left
decreasing_by
  all_goals omega

/-- `TrapFrame::fixup_exception` from `src/uspace.rs`: binary-search the
(sorted) exception table for the frame's instruction pointer; on a hit,
rewrite the instruction pointer to the matching recovery address and report
success.  The linker-provided table is passed explicitly. -/
def TrapFrame.fixup_exception (tf : TrapFrame) (entries : List ExceptionTableEntry) :
    Bool × TrapFrame :=
  match binary_search_from entries tf.ip 0 entries.length with
  | some i => (true, tf.set_ip (entries.getD i ⟨0, 0⟩).to_)
  | none => (false, tf)

/-- Result of one kernel-mode abort/exception dispatch
(`handle_data_abort` / `handle_instruction_abort` / `handle_sync_exception`
in `src/aarch64/trap.rs`).  `handlerCalled` records whether the external
page-fault handler callback (`handle_trap!(PAGE_FAULT, ..)`) was invoked,
`fixupCalled` whether the fixup-table lookup was consulted, and `result` is
`some` of the (possibly rewritten) frame on resumption, `none` on
`panic!`. -/
structure KDispatch where
  handlerCalled : Bool
  fixupCalled : Bool
  result : Option TrapFrame
deriving DecidableEq, Repr

/-- `handle_instruction_abort` from `src/aarch64/trap.rs` (kernel mode).
`handler` is the registered page-fault callback, `entries` the exception
table and `far` the value of `FAR_EL1`. -/
def handle_instruction_abort (handler : Nat → PageFaultFlags → Bool)
    (entries : List ExceptionTableEntry) (tf : TrapFrame) (iss far : Nat) : KDispatch :=
  let access_flags := PageFaultFlags.EXECUTE
  if ¬ is_valid_page_fault iss then
    { handlerCalled := false, fixupCalled := false, result := none }
  else if handler far access_flags then
    { handlerCalled := true, fixupCalled := false, result := some tf }
  else
    match tf.fixup_exception entries with
    | (true, tf2) => { handlerCalled := true, fixupCalled := true, result := some tf2 }
    | (false, _) => { handlerCalled := true, fixupCalled := true, result := none }

/-- `handle_data_abort` from `src/aarch64/trap.rs` (kernel mode). -/
def handle_data_abort (handler : Nat → PageFaultFlags → Bool)
    (entries : List ExceptionTableEntry) (tf : TrapFrame) (iss far : Nat) : KDispatch :=
  let access_flags := data_abort_access_flags iss
  if ¬ is_valid_page_fault iss then
    { handlerCalled := false, fixupCalled := false, result := none }
  else if handler far access_flags then
    { handlerCalled := true, fixupCalled := false, result := some tf }
  else
    match tf.fixup_exception entries with
    | (true, tf2) => { handlerCalled := true, fixupCalled := true, result := some tf2 }
    | (false, _) => { handlerCalled := true, fixupCalled := true, result := none }

/-- `handle_sync_exception` from `src/aarch64/trap.rs`: dispatch a kernel
synchronous exception on the exception class decoded from `esr`.
`0x21`/`0x25` are the current-EL instruction/data abort classes, `0x3C` is
`Brk64`; every other class (recognized by `read_as_enum` or not) panics.
The `+= 4` on `elr` is a wrapping `u64` addition. -/
def handle_sync_exception (handler : Nat → PageFaultFlags → Bool)
    (entries : List ExceptionTableEntry) (tf : TrapFrame) (esr far : Nat) : KDispatch :=
  let iss := esr_iss esr
  match esr_ec esr with
  | 0x21 => handle_instruction_abort handler entries tf iss far
  | 0x25 => handle_data_abort handler entries tf iss far
  | 0x3C => { handlerCalled := false, fixupCalled := false,
              result := some { tf with elr := (tf.elr + 4) % 2 ^ 64 } }
  | _ => { handlerCalled := false, fixupCalled := false, result := none }

/-- `ExceptionInfo` from `src/aarch64/uctx.rs`: the raw `ESR_EL1` value and
the faulting address read from `FAR_EL1`. -/
structure ExceptionInfo where
  esr : Nat
  stval : Nat
deriving DecidableEq, Repr

/-- `ReturnReason` from `src/uspace.rs`: why a user-mode session returned. -/
inductive ReturnReason where
  | Unknown
  | Interrupt
  | Syscall
  | PageFault (vaddr : Nat) (flags : PageFaultFlags)
  | Exception (info : ExceptionInfo)
deriving DecidableEq, Repr

/-- `UserContext` from `src/aarch64/uctx.rs`. -/
structure UserContext where
  tf : TrapFrame
  sp_el1 : Nat
deriving DecidableEq, Repr

/-- `UserContext::new` from `src/aarch64/uctx.rs`: zeroed registers except
`r[0] = arg0`, user stack pointer, entry point in `elr`, and `spsr = 0`. -/
def UserContext.new (entry ustack_top arg0 : Nat) : UserContext :=
  { tf := { r := arg0 :: List.replicate 30 0
          , usp := ustack_top
          , tpidr := 0
          , elr := entry
          , spsr := 0 }
  , sp_el1 := 0 }

/-- `UserContext::from` from `src/aarch64/uctx.rs` (`from` is a Lean
keyword): wraps the given frame unchanged. -/
def UserContext.from_ (tf : TrapFrame) : UserContext :=
  { tf := tf, sp_el1 := 0 }

/-- `handle_data_abort_lower` from `src/aarch64/uctx.rs`: classify a
user-mode data abort; `none` models the `panic!` on an invalid fault
sub-code. -/
def handle_data_abort_lower (iss far : Nat) : Option ReturnReason :=
  let access_flags := (data_abort_access_flags iss).union PageFaultFlags.USER
  if ¬ is_valid_page_fault iss then none
  else some (ReturnReason.PageFault far access_flags)

/-- `handle_instruction_abort_lower` from `src/aarch64/uctx.rs`. -/
def handle_instruction_abort_lower (iss far : Nat) : Option ReturnReason :=
  let access_flags := PageFaultFlags.EXECUTE.union PageFaultFlags.USER
  if ¬ is_valid_page_fault iss then none
  else some (ReturnReason.PageFault far access_flags)

/-- `UserContext::run` from `src/aarch64/uctx.rs`, as a function of the trap
observed on return from user mode: the trap kind reported by `enter_user`,
the `ESR_EL1` and `FAR_EL1` values.  The returned `Bool` is the
interrupt-enable state at the moment `run` returns (`enable_irqs()` runs on
every non-panicking path); `none` models a `panic!` escaping `run`.
`0x15` is the `SVC64` exception class, `0x24`/`0x20` the lower-EL
data/instruction abort classes. -/
def run (kind : TrapKind) (esr far : Nat) : Option (ReturnReason × Bool) :=
  match kind with
  | TrapKind.Irq => some (ReturnReason.Interrupt, true)
  | TrapKind.Synchronous =>
    match esr_ec esr with
    | 0x15 => some (ReturnReason.Syscall, true)
    | 0x24 => (handle_data_abort_lower (esr_iss esr) far).map (fun rr => (rr, true))
    | 0x20 => (handle_instruction_abort_lower (esr_iss esr) far).map (fun rr => (rr, true))
    | _ => some (ReturnReason.Exception { esr := esr, stval := far }, true)
  | _ => some (ReturnReason.Unknown, true)

/-- `UspaceContext` from `src/aarch64/uspace.rs`. -/
structure UspaceContext where
  tf : TrapFrame
deriving DecidableEq, Repr

/-- `UspaceContext::new` from `src/aarch64/uspace.rs`.  The `spsr` value is
`SPSR_EL1::M::EL0t + D::Masked + A::Masked + I::Unmasked + F::Masked`:
mode bits 3:0 are 0 (EL0t), bit 9 (D, debug) is 1, bit 8 (A, SError) is 1,
bit 7 (I, IRQ) is 0 and bit 6 (F, FIQ) is 1, i.e. `0x340`. -/
def UspaceContext.new (entry ustack_top arg0 : Nat) : UspaceContext :=
  { tf := { r := arg0 :: List.replicate 30 0
          , usp := ustack_top
          , tpidr := 0
          , elr := entry
          , spsr := (1 <<< 9) ||| (1 <<< 8) ||| (1 <<< 6) } }

/-- `UspaceContext::from` from `src/aarch64/uspace.rs` (`from` is a Lean
keyword): copies the given frame verbatim. -/
def UspaceContext.from_ (tf : TrapFrame) : UspaceContext :=
  { tf := tf }

end AArch64

namespace X86

/-- The x86_64 `TrapFrame`.  The struct declaration lives in
`x86_64/context.rs` (not among the included sources); the field list is
fixed by the register-restore sequence in `UspaceContext::enter_uspace` in
`src/x86_64/uspace.rs` (fifteen `pop`s, four skipped slots, then the
`iretq` frame) together with the fields named in `UspaceContext::new` and
`UspaceContext::from`. -/
structure TrapFrame where
  rax : Nat
  rcx : Nat
  rdx : Nat
  rbx : Nat
  rbp : Nat
  rsi : Nat
  rdi : Nat
  r8 : Nat
  r9 : Nat
  r10 : Nat
  r11 : Nat
  r12 : Nat
  r13 : Nat
  r14 : Nat
  r15 : Nat
  fs_base : Nat
  vector : Nat
  error_code : Nat
  rip : Nat
  cs : Nat
  rflags : Nat
  rsp : Nat
  ss : Nat
deriving DecidableEq, Repr

/-- Modelled from the spec: the user-mode 64-bit code segment selector
(`GdtStruct::UCODE64_SELECTOR`; the descriptor-table module is not among
the included sources).  Its exact numeric value is immaterial to the
claims; what matters is that it is the fixed user-mode value. -/
def UCODE64_SELECTOR : Nat := 0x33

/-- Modelled from the spec: the user-mode data segment selector
(`GdtStruct::UDATA_SELECTOR`). -/
def UDATA_SELECTOR : Nat := 0x2b

/-- `UspaceContext` from `src/x86_64/uspace.rs`. -/
structure UspaceContext where
  tf : TrapFrame
deriving DecidableEq, Repr

/-- `UspaceContext::from` from `src/x86_64/uspace.rs` (`from` is a Lean
keyword): copies the frame but forces `cs` and `ss` to the user segment
selectors. -/
def UspaceContext.from_ (tf : TrapFrame) : UspaceContext :=
  { tf := { tf with cs := UCODE64_SELECTOR, ss := UDATA_SELECTOR } }

end X86

/-! ### Helper lemmas about the bit arithmetic -/

theorem land_sixty_mod (iss : Nat) : iss &&& 60 = (iss % 64) &&& 60 := by
  apply Nat.eq_of_testBit_eq
  intro i
  rw [Nat.testBit_and, Nat.testBit_and, show (64 : Nat) = 2 ^ 6 from rfl,
    Nat.testBit_mod_two_pow]
  by_cases h : i < 6
  · simp [h]
  · have h60 : (60 : Nat).testBit i = false := by
      apply Nat.testBit_eq_false_of_lt
      calc (60 : Nat) < 2 ^ 6 := by norm_num
        _ ≤ 2 ^ i := Nat.pow_le_pow_right (by norm_num) (by omega)
    simp [h60]

theorem land_one_shiftLeft_bne (n i : Nat) : (n &&& (1 <<< i) != 0) = n.testBit i := by
  rw [Nat.one_shiftLeft]
  rcases h : n.testBit i with hf | ht
  · rw [Nat.and_two_pow, h]
    simp
  · rw [Nat.and_two_pow, h]
    simp [Nat.pos_iff_ne_zero, Nat.pow_pos]

namespace AArch64

theorem is_valid_page_fault_mod (iss : Nat) :
    is_valid_page_fault iss = is_valid_page_fault (iss % 64) := by
  unfold is_valid_page_fault
  rw [land_sixty_mod]

theorem data_abort_access_flags_write (iss : Nat) (h6 : iss.testBit 6 = true)
    (h8 : iss.testBit 8 = false) :
    data_abort_access_flags iss = PageFaultFlags.WRITE := by
  simp only [data_abort_access_flags, land_one_shiftLeft_bne, h6, h8]
  rfl

theorem data_abort_access_flags_read_cm (iss : Nat) (h6 : iss.testBit 6 = true)
    (h8 : iss.testBit 8 = true) :
    data_abort_access_flags iss = PageFaultFlags.READ := by
  simp only [data_abort_access_flags, land_one_shiftLeft_bne, h6, h8]
  rfl

theorem data_abort_access_flags_read_nownr (iss : Nat) (h6 : iss.testBit 6 = false) :
    data_abort_access_flags iss = PageFaultFlags.READ := by
  simp only [data_abort_access_flags, land_one_shiftLeft_bne, h6]
  rfl

/-! ### Claim theorems -/

/-- Claim C3: `is_valid_page_fault` accepts a fault-status sub-code (the low
six bits of the syndrome payload) if and only if it is a translation fault
(codes 4 to 7, one per level) or a permission fault (codes 12 to 15); every
other sub-code is classified invalid. -/
theorem is_valid_page_fault_iff (iss : Nat) :
    is_valid_page_fault iss = true ↔
      (4 ≤ iss % 64 ∧ iss % 64 ≤ 7) ∨ (12 ≤ iss % 64 ∧ iss % 64 ≤ 15) := by
  rw [is_valid_page_fault_mod]
  have hlt : iss % 64 < 64 := Nat.mod_lt _ (by norm_num)
  have hdec : ∀ s, s < 64 → (is_valid_page_fault s = true ↔
      (4 ≤ s ∧ s ≤ 7) ∨ (12 ≤ s ∧ s ≤ 15)) := by decide
  exact hdec _ hlt

/-- Claim C4: `data_abort_access_flags` classifies a data-abort payload as
WRITE exactly when the write-indicator bit (bit 6, WnR) is set and the
cache-maintenance bit (bit 8, CM) is clear; in every other case it
classifies READ. -/
theorem data_abort_access_flags_spec (iss : Nat) :
    (iss.testBit 6 = true → iss.testBit 8 = false →
      data_abort_access_flags iss = PageFaultFlags.WRITE) ∧
    (iss.testBit 6 = true → iss.testBit 8 = true →
      data_abort_access_flags iss = PageFaultFlags.READ) ∧
    (iss.testBit 6 = false → data_abort_access_flags iss = PageFaultFlags.READ) :=
  ⟨data_abort_access_flags_write iss, data_abort_access_flags_read_cm iss,
    data_abort_access_flags_read_nownr iss⟩

/-- Witness for claim C4: payload 64 has only WnR set (WRITE), payload 320
has WnR and CM set (READ), payload 0 has WnR clear (READ). -/
theorem data_abort_access_flags_spec_witness :
    data_abort_access_flags 64 = PageFaultFlags.WRITE ∧
    data_abort_access_flags 320 = PageFaultFlags.READ ∧
    data_abort_access_flags 0 = PageFaultFlags.READ :=
  ⟨(data_abort_access_flags_spec 64).1 (by decide) (by decide),
    (data_abort_access_flags_spec 320).2.1 (by decide) (by decide),
    (data_abort_access_flags_spec 0).2.2 (by decide)⟩

end AArch64

namespace AArch64

theorem binary_search_from_sound (entries : List ExceptionTableEntry) (key : Nat) :
    ∀ n left right j, right - left ≤ n →
      binary_search_from entries key left right = some j →
      left ≤ j ∧ j < right ∧ (entries.getD j ⟨0, 0⟩).from_ = key := by
  intro n
  induction n with
  | zero =>
    intro left right j hle h
    rw [binary_search_from, dif_neg (by omega : ¬ left < right)] at h
    exact absurd h (by simp)
  | succ n ih =>
    intro left right j hle h
    by_cases hlr : left < right
    · rw [binary_search_from, dif_pos hlr] at h
      set mid := left + (right - left) / 2 with hmid
      by_cases h1 : (entries.getD mid ⟨0, 0⟩).from_ < key
      · rw [if_pos h1] at h
        have hj := ih (mid + 1) right j (by omega) h
        exact ⟨by omega, hj.2.1, hj.2.2⟩
      · rw [if_neg h1] at h
        by_cases h2 : key < (entries.getD mid ⟨0, 0⟩).from_
        · rw [if_pos h2] at h
          have hj := ih left mid j (by omega) h
          exact ⟨hj.1, by omega, hj.2.2⟩
        · rw [if_neg h2] at h
          obtain rfl : mid = j := Option.some.inj h
          exact ⟨by omega, by omega, by omega⟩
    · rw [binary_search_from, dif_neg hlr] at h
      exact absurd h (by simp)

theorem binary_search_from_complete (entries : List ExceptionTableEntry) (key : Nat)
    (hsorted : ∀ j, j < entries.length → ∀ i, i < j →
      (entries.getD i ⟨0, 0⟩).from_ < (entries.getD j ⟨0, 0⟩).from_) :
    ∀ n left right, right - left ≤ n → right ≤ entries.length →
      ∀ i, left ≤ i → i < right → (entries.getD i ⟨0, 0⟩).from_ = key →
      (binary_search_from entries key left right).isSome = true := by
  intro n
  induction n with
  | zero =>
    intro left right hle hlen i hi1 hi2 hkey
    omega
  | succ n ih =>
    intro left right hle hlen i hi1 hi2 hkey
    have hlr : left < right := by omega
    rw [binary_search_from, dif_pos hlr]
    set mid := left + (right - left) / 2 with hmid
    have hmidlt : mid < right := by omega
    by_cases h1 : (entries.getD mid ⟨0, 0⟩).from_ < key
    · rw [if_pos h1]
      have himid : mid < i := by
        by_contra hc
        push_neg at hc
        rcases Nat.lt_or_eq_of_le hc with hlt | heq
        · have := hsorted mid (by omega) i hlt
          omega
        · rw [heq] at hkey
          omega
      exact ih (mid + 1) right (by omega) hlen i (by omega) hi2 hkey
    · rw [if_neg h1]
      by_cases h2 : key < (entries.getD mid ⟨0, 0⟩).from_
      · rw [if_pos h2]
        have himid : i < mid := by
          by_contra hc
          push_neg at hc
          rcases Nat.lt_or_eq_of_le hc with hlt | heq
          · have := hsorted i (by omega) mid hlt
            omega
          · rw [← heq] at hkey
            omega
        exact ih left mid (by omega) (by omega) i hi1 himid hkey
      · rw [if_neg h2]
        simp

/-- Claim C2: on an exception table sorted strictly ascending by faulting
address, `fixup_exception` on a frame whose instruction pointer equals some
entry's faulting address rewrites the instruction pointer to exactly that
entry's recovery address and returns true; if the instruction pointer
matches no entry, the frame is left unchanged and it returns false. -/
theorem fixup_exception_spec (entries : List ExceptionTableEntry) (tf : TrapFrame)
    (hsorted : ∀ j, j < entries.length → ∀ i, i < j →
      (entries.getD i ⟨0, 0⟩).from_ < (entries.getD j ⟨0, 0⟩).from_) :
    (∀ e ∈ entries, e.from_ = tf.ip →
      tf.fixup_exception entries = (true, tf.set_ip e.to_)) ∧
    ((∀ e ∈ entries, e.from_ ≠ tf.ip) →
      tf.fixup_exception entries = (false, tf)) := by
  constructor
  · intro e he hkey
    obtain ⟨k, hk, hek⟩ := List.mem_iff_getElem.mp he
    have hgk : entries.getD k ⟨0, 0⟩ = e := by
      rw [List.getD_eq_getElem entries ⟨0, 0⟩ hk, hek]
    have hsome := binary_search_from_complete entries tf.ip hsorted entries.length 0
      entries.length (by omega) (le_refl _) k (Nat.zero_le _) hk (by rw [hgk, hkey])
    obtain ⟨j, hj⟩ := Option.isSome_iff_exists.mp hsome
    have hjs := binary_search_from_sound entries tf.ip entries.length 0 entries.length j
      (by omega) hj
    have hkey2 : (entries.getD k ⟨0, 0⟩).from_ = tf.ip := by rw [hgk, hkey]
    have hjk : j = k := by
      rcases Nat.lt_trichotomy j k with hlt | heq | hgt
      · have := hsorted k hk j hlt
        omega
      · exact heq
      · have := hsorted j hjs.2.1 k hgt
        omega
    unfold TrapFrame.fixup_exception
    rw [hj, hjk]
    show (true, tf.set_ip (entries.getD k ⟨0, 0⟩).to_) = (true, tf.set_ip e.to_)
    rw [hgk]
  · intro hne
    cases hb : binary_search_from entries tf.ip 0 entries.length with
    | none =>
      unfold TrapFrame.fixup_exception
      rw [hb]
    | some j =>
      have hjs := binary_search_from_sound entries tf.ip entries.length 0 entries.length j
        (by omega) hb
      have hmem : entries.getD j ⟨0, 0⟩ ∈ entries := by
        rw [List.getD_eq_getElem entries ⟨0, 0⟩ hjs.2.1]
        exact List.getElem_mem hjs.2.1
      exact absurd hjs.2.2 (hne _ hmem)

/-- Witness for claim C2: on the two-entry table with faulting addresses
0x10 and 0x20, a frame trapped at 0x20 is rewritten to the recovery address
0x200, and a frame trapped at 0x15 is left unchanged. -/
theorem fixup_exception_spec_witness :
    ({ r := [], usp := 0, tpidr := 0, elr := 0x20, spsr := 0 } : TrapFrame).fixup_exception
        [⟨0x10, 0x100⟩, ⟨0x20, 0x200⟩] =
      (true, { r := [], usp := 0, tpidr := 0, elr := 0x200, spsr := 0 }) ∧
    ({ r := [], usp := 0, tpidr := 0, elr := 0x15, spsr := 0 } : TrapFrame).fixup_exception
        [⟨0x10, 0x100⟩, ⟨0x20, 0x200⟩] =
      (false, { r := [], usp := 0, tpidr := 0, elr := 0x15, spsr := 0 }) :=
  ⟨(fixup_exception_spec [⟨0x10, 0x100⟩, ⟨0x20, 0x200⟩]
      { r := [], usp := 0, tpidr := 0, elr := 0x20, spsr := 0 } (by decide)).1
      ⟨0x20, 0x200⟩ (by decide) rfl,
    (fixup_exception_spec [⟨0x10, 0x100⟩, ⟨0x20, 0x200⟩]
      { r := [], usp := 0, tpidr := 0, elr := 0x15, spsr := 0 } (by decide)).2
      (by decide)⟩

end AArch64

/-- Claim C8: for every initial ordering of the exception-table entries,
`init_exception_table` produces a permutation of the input that is sorted
ascending by faulting address; and re-sorting a table that is already
sorted (strictly, per the no-duplicate-address table invariant) leaves
every entry in place. -/
theorem init_exception_table_spec (l : List ExceptionTableEntry) :
    (init_exception_table l).Perm l ∧
    List.Sorted (fun a b => a.from_ ≤ b.from_) (init_exception_table l) ∧
    (List.Sorted (fun a b => a.from_ < b.from_) l → init_exception_table l = l) := by
  refine ⟨List.perm_insertionSort entryLe l, ?_, ?_⟩
  · have hs := List.sorted_insertionSort entryLe l
    exact hs.imp (fun hab => by unfold entryLe at hab; omega)
  · intro hstrict
    exact List.Sorted.insertionSort_eq (hstrict.imp (fun hab => Or.inl hab))

/-- Witness for claim C8: re-sorting the already-sorted two-entry table
with faulting addresses 1 and 5 is a no-op. -/
theorem init_exception_table_spec_witness :
    init_exception_table [⟨1, 10⟩, ⟨5, 2⟩] = [⟨1, 10⟩, ⟨5, 2⟩] :=
  (init_exception_table_spec [⟨1, 10⟩, ⟨5, 2⟩]).2.2 (by decide)

theorem getD_replicate_zero : ∀ (n j : Nat), (List.replicate n (0 : Nat)).getD j 0 = 0 := by
  intro n
  induction n with
  | zero =>
    intro j
    cases j <;> rfl
  | succ n ih =>
    intro j
    cases j with
    | zero => rfl
    | succ j => simp [List.replicate, List.getD] at ih ⊢

namespace AArch64

/-- Counterexample to claim C5 as stated: the new-user-session constructor
`UserContext::new` (one of the two constructors the claim covers) sets the
saved status register to 0, in which the debug-mask bit (9) and the
async-abort-mask bit (8) are clear, so the status register is not the
canonical value with debug/async-abort masked that the sibling constructor
`UspaceContext::new` produces (0x340). -/
theorem uctx_new_spsr_counterexample :
    (UserContext.new 0x1000 0x7fff0000 42).tf.spsr = 0 ∧
    Nat.testBit (UserContext.new 0x1000 0x7fff0000 42).tf.spsr 9 = false ∧
    Nat.testBit (UserContext.new 0x1000 0x7fff0000 42).tf.spsr 8 = false ∧
    (UserContext.new 0x1000 0x7fff0000 42).tf.spsr ≠
      (UspaceContext.new 0x1000 0x7fff0000 42).tf.spsr := by
  refine ⟨rfl, by decide, by decide, ?_⟩
  show (0 : Nat) ≠ (1 <<< 9) ||| (1 <<< 8) ||| (1 <<< 6)
  decide

/-- Claim C5 (amended): both aarch64 new-user-session constructors produce
a frame with instruction pointer `entry`, user stack pointer `ustack`,
first-argument register `arg0`, all 30 other general-purpose registers 0
and a cleared thread pointer; `UspaceContext::new` sets the status register
to the canonical unprivileged value 0x340 (mode EL0t, debug/async-abort/FIQ
masked, IRQ unmasked), but `UserContext::new` sets the status register to 0
(mode EL0t with debug and async-abort left unmasked). -/
theorem new_user_session_constructors_spec (entry ustack arg0 : Nat) :
    ((UspaceContext.new entry ustack arg0).tf.elr = entry ∧
      (UspaceContext.new entry ustack arg0).tf.usp = ustack ∧
      (UspaceContext.new entry ustack arg0).tf.r.getD 0 0 = arg0 ∧
      (UspaceContext.new entry ustack arg0).tf.r.length = 31 ∧
      (∀ i, 1 ≤ i → i < 31 → (UspaceContext.new entry ustack arg0).tf.r.getD i 0 = 0) ∧
      (UspaceContext.new entry ustack arg0).tf.tpidr = 0 ∧
      (UspaceContext.new entry ustack arg0).tf.spsr = 0x340) ∧
    ((UserContext.new entry ustack arg0).tf.elr = entry ∧
      (UserContext.new entry ustack arg0).tf.usp = ustack ∧
      (UserContext.new entry ustack arg0).tf.r.getD 0 0 = arg0 ∧
      (UserContext.new entry ustack arg0).tf.r.length = 31 ∧
      (∀ i, 1 ≤ i → i < 31 → (UserContext.new entry ustack arg0).tf.r.getD i 0 = 0) ∧
      (UserContext.new entry ustack arg0).tf.tpidr = 0 ∧
      (UserContext.new entry ustack arg0).tf.spsr = 0) := by
  have hrest : ∀ i, 1 ≤ i → i < 31 →
      (arg0 :: List.replicate 30 (0 : Nat)).getD i 0 = 0 := by
    intro i h1 _h2
    obtain ⟨j, rfl⟩ : ∃ j, i = j + 1 := ⟨i - 1, by omega⟩
    simpa [List.getD] using getD_replicate_zero 30 j
  exact ⟨⟨rfl, rfl, rfl, by simp [UspaceContext.new], hrest, rfl, rfl⟩,
    ⟨rfl, rfl, rfl, by simp [UserContext.new], hrest, rfl, rfl⟩⟩

end AArch64

/-- Counterexample to claim C6 as stated: the aarch64 copy constructor
`UspaceContext::from` copies the frame verbatim, so a frame whose saved
status register is 0x3C5 (mode bits 3:0 equal to 5, i.e. the kernel mode
EL1h, with DAIF masked) keeps mode bits 5 instead of being forced to the
user-mode value 0. -/
theorem uspace_from_counterexample :
    ((AArch64.UspaceContext.from_
        { r := [], usp := 0, tpidr := 0, elr := 0x4000, spsr := 0x3C5 }).tf.spsr = 0x3C5) ∧
    (0x3C5 : Nat) % 16 = 5 ∧ (5 : Nat) ≠ 0 :=
  ⟨rfl, by decide, by decide⟩

/-- Claim C6 (amended): the x86_64 copy constructor copies the input frame
except that the privilege-describing segment selectors `cs` and `ss` are
forced to the user-mode selectors; the aarch64 copy constructors
(`UspaceContext::from` and `UserContext::from`) copy the input frame
completely unchanged, including the privilege-mode bits of the saved
status register. -/
theorem from_constructors_spec (xtf : X86.TrapFrame) (atf : AArch64.TrapFrame) :
    (X86.UspaceContext.from_ xtf).tf =
      { xtf with cs := X86.UCODE64_SELECTOR, ss := X86.UDATA_SELECTOR } ∧
    (AArch64.UspaceContext.from_ atf).tf = atf ∧
    (AArch64.UserContext.from_ atf).tf = atf ∧
    (AArch64.UserContext.from_ atf).sp_el1 = 0 :=
  ⟨rfl, rfl, rfl, rfl⟩

namespace AArch64

/-- Claim C9: a kernel synchronous exception whose class is `Brk64` (0x3C)
is handled by advancing the saved instruction pointer by the fixed 4-byte
breakpoint width (a wrapping 64-bit addition) and resuming; the page-fault
handler, the fixup table and the fatal path are not involved, and no frame
field other than `elr` changes. -/
theorem brk_advances_elr (handler : Nat → PageFaultFlags → Bool)
    (entries : List ExceptionTableEntry) (tf : TrapFrame) (esr far : Nat)
    (h : esr_ec esr = 0x3C) :
    handle_sync_exception handler entries tf esr far =
      { handlerCalled := false, fixupCalled := false,
        result := some { tf with elr := (tf.elr + 4) % 2 ^ 64 } } := by
  unfold handle_sync_exception
  rw [h]

/-- Witness for claim C9: a concrete `BRK` trap at `elr = 0x8000` resumes
at 0x8004 with every other field unchanged. -/
theorem brk_advances_elr_witness :
    handle_sync_exception (fun _ _ => false) []
        { r := [7], usp := 3, tpidr := 5, elr := 0x8000, spsr := 0x3C5 }
        (0x3C * 2 ^ 26) 0 =
      { handlerCalled := false, fixupCalled := false,
        result := some { r := [7], usp := 3, tpidr := 5, elr := 0x8004, spsr := 0x3C5 } } := by
  rw [brk_advances_elr (fun _ _ => false) []
    { r := [7], usp := 3, tpidr := 5, elr := 0x8000, spsr := 0x3C5 } (0x3C * 2 ^ 26) 0
    (by decide)]
  rfl

/-- Claim C10: when the trap kind observed on return from user mode is
neither `Synchronous` nor `Irq` (i.e. `Fiq` or `SError`), `run` does not
panic: it returns `ReturnReason::Unknown`, with interrupts re-enabled, just
like every other non-panicking return path. -/
theorem run_unknown_kind (kind : TrapKind) (esr far : Nat)
    (h : kind = TrapKind.Fiq ∨ kind = TrapKind.SError) :
    run kind esr far = some (ReturnReason.Unknown, true) := by
  rcases h with h | h <;> rw [h] <;> rfl

/-- Witness for claim C10: an `Fiq` return yields `Unknown` with interrupts
re-enabled. -/
theorem run_unknown_kind_witness :
    run TrapKind.Fiq 0 0 = some (ReturnReason.Unknown, true) :=
  run_unknown_kind TrapKind.Fiq 0 0 (Or.inl rfl)

end AArch64

namespace AArch64

/-- Claim C1: on the managed user-mode round trip, a synchronous trap whose
decoded exception class is the system-call class (`SVC64`, 0x15) makes
`run` return `Syscall`; a lower-EL data abort (0x24) or instruction abort
(0x20) with a valid page-fault sub-code makes `run` return
`PageFault(faultAddress, flags)` where the flags always include USER, and
for a data abort with write-bit (6) set and cache-maintenance bit (8) clear
also WRITE.  In all these cases interrupts are re-enabled on return. -/
theorem run_user_trap_classification (esr far : Nat) :
    (esr_ec esr = 0x15 →
      run TrapKind.Synchronous esr far = some (ReturnReason.Syscall, true)) ∧
    (esr_ec esr = 0x24 → is_valid_page_fault (esr_iss esr) = true →
      run TrapKind.Synchronous esr far =
        some (ReturnReason.PageFault far
          ((data_abort_access_flags (esr_iss esr)).union PageFaultFlags.USER), true) ∧
      ((data_abort_access_flags (esr_iss esr)).union PageFaultFlags.USER).user = true ∧
      ((esr_iss esr).testBit 6 = true → (esr_iss esr).testBit 8 = false →
        ((data_abort_access_flags (esr_iss esr)).union PageFaultFlags.USER).write = true)) ∧
    (esr_ec esr = 0x20 → is_valid_page_fault (esr_iss esr) = true →
      run TrapKind.Synchronous esr far =
        some (ReturnReason.PageFault far
          (PageFaultFlags.EXECUTE.union PageFaultFlags.USER), true) ∧
      (PageFaultFlags.EXECUTE.union PageFaultFlags.USER).user = true) := by
  refine ⟨?_, ?_, ?_⟩
  · intro h
    unfold run
    rw [h]
  · intro h hv
    refine ⟨?_, ?_, ?_⟩
    · unfold run
      rw [h]
      show (handle_data_abort_lower (esr_iss esr) far).map (fun rr => (rr, true)) = _
      simp [handle_data_abort_lower, hv]
    · simp [PageFaultFlags.union, PageFaultFlags.USER]
    · intro h6 h8
      rw [data_abort_access_flags_write _ h6 h8]
      rfl
  · intro h hv
    refine ⟨?_, rfl⟩
    unfold run
    rw [h]
    show (handle_instruction_abort_lower (esr_iss esr) far).map (fun rr => (rr, true)) = _
    simp [handle_instruction_abort_lower, hv]

/-- Witness for claim C1: an `SVC64` syndrome yields `Syscall`, and a
lower-EL data abort with a level-3 permission-fault sub-code and the
write bit set (payload 79) yields a page fault at the faulting address
with exactly the WRITE and USER flags. -/
theorem run_user_trap_classification_witness :
    run TrapKind.Synchronous (0x15 * 2 ^ 26) 0 = some (ReturnReason.Syscall, true) ∧
    run TrapKind.Synchronous (0x24 * 2 ^ 26 + 79) 0x7fff0000 =
      some (ReturnReason.PageFault 0x7fff0000
        (PageFaultFlags.WRITE.union PageFaultFlags.USER), true) := by
  constructor
  · exact (run_user_trap_classification (0x15 * 2 ^ 26) 0).1 (by decide)
  · have h := ((run_user_trap_classification (0x24 * 2 ^ 26 + 79) 0x7fff0000).2.1
      (by decide) (by decide)).1
    have hflags : (data_abort_access_flags (esr_iss (0x24 * 2 ^ 26 + 79))).union
        PageFaultFlags.USER = PageFaultFlags.WRITE.union PageFaultFlags.USER := by decide
    rw [hflags] at h
    exact h

/-- Claim C7: for a kernel-mode data or instruction abort with a valid
page-fault sub-code, the dispatcher always invokes the external page-fault
handler; the fixup-table lookup is consulted exactly when that handler
reports not-handled; and the event is fatal exactly when the handler
reports not-handled and the fixup lookup also finds no match.  With an
invalid sub-code the event is fatal without invoking either. -/
theorem kernel_abort_dispatch_policy (handler : Nat → PageFaultFlags → Bool)
    (entries : List ExceptionTableEntry) (tf : TrapFrame) (iss far : Nat) :
    (is_valid_page_fault iss = false →
      handle_data_abort handler entries tf iss far =
        { handlerCalled := false, fixupCalled := false, result := none } ∧
      handle_instruction_abort handler entries tf iss far =
        { handlerCalled := false, fixupCalled := false, result := none }) ∧
    (is_valid_page_fault iss = true →
      (handle_data_abort handler entries tf iss far).handlerCalled = true ∧
      ((handle_data_abort handler entries tf iss far).fixupCalled = true ↔
        handler far (data_abort_access_flags iss) = false) ∧
      ((handle_data_abort handler entries tf iss far).result = none ↔
        handler far (data_abort_access_flags iss) = false ∧
          (tf.fixup_exception entries).1 = false) ∧
      (handle_instruction_abort handler entries tf iss far).handlerCalled = true ∧
      ((handle_instruction_abort handler entries tf iss far).fixupCalled = true ↔
        handler far PageFaultFlags.EXECUTE = false) ∧
      ((handle_instruction_abort handler entries tf iss far).result = none ↔
        handler far PageFaultFlags.EXECUTE = false ∧
          (tf.fixup_exception entries).1 = false)) := by
  constructor
  · intro hinv
    unfold handle_data_abort handle_instruction_abort
    simp [hinv]
  · intro hv
    unfold handle_data_abort handle_instruction_abort
    rcases hfix : tf.fixup_exception entries with ⟨b, tf2⟩
    by_cases hh1 : handler far (data_abort_access_flags iss) = true <;>
      by_cases hh2 : handler far PageFaultFlags.EXECUTE = true <;>
        cases b <;>
          simp [hv, hfix, hh1, hh2]

/-- Witness for claim C7: with an always-not-handled external handler and a
one-entry fixup table matching the trapped instruction, an invalid
sub-code (0) is fatal without consulting anything, while a translation
fault (sub-code 4) reaches the handler. -/
theorem kernel_abort_dispatch_policy_witness :
    handle_data_abort (fun _ _ => false) [⟨0x10, 0x100⟩]
        { r := [], usp := 0, tpidr := 0, elr := 0x10, spsr := 0 } 0 0 =
      { handlerCalled := false, fixupCalled := false, result := none } ∧
    (handle_data_abort (fun _ _ => false) [⟨0x10, 0x100⟩]
        { r := [], usp := 0, tpidr := 0, elr := 0x10, spsr := 0 } 4 0).handlerCalled = true :=
  ⟨((kernel_abort_dispatch_policy (fun _ _ => false) [⟨0x10, 0x100⟩]
      { r := [], usp := 0, tpidr := 0, elr := 0x10, spsr := 0 } 0 0).1 (by decide)).1,
    ((kernel_abort_dispatch_policy (fun _ _ => false) [⟨0x10, 0x100⟩]
      { r := [], usp := 0, tpidr := 0, elr := 0x10, spsr := 0 } 4 0).2 (by decide)).1⟩

end AArch64

namespace AArch64

/-- Witness for the amended claim C5 at entry 0x1000, stack 0x7fff0000,
argument 42: register 5 is zero and the two constructors produce status
registers 0x340 and 0 respectively. -/
theorem new_user_session_constructors_spec_witness :
    (UspaceContext.new 0x1000 0x7fff0000 42).tf.spsr = 0x340 ∧
    (UspaceContext.new 0x1000 0x7fff0000 42).tf.r.getD 5 0 = 0 ∧
    (UserContext.new 0x1000 0x7fff0000 42).tf.spsr = 0 :=
  ⟨((new_user_session_constructors_spec 0x1000 0x7fff0000 42).1).2.2.2.2.2.2,
    ((new_user_session_constructors_spec 0x1000 0x7fff0000 42).1).2.2.2.2.1 5
      (by decide) (by decide),
    ((new_user_session_constructors_spec 0x1000 0x7fff0000 42).2).2.2.2.2.2.2⟩

end AArch64
